import Mathlib

/-!
Shallow embedding of `src/mbox_to_telegram.py`.

The program forwards unread messages from a local mbox file to a Telegram
chat, remembering the last forwarded message id in a state file.

Modelling choices:
* A mailbox is a `List Message` in mailbox order; a `Message` carries the
  header fields the program reads (`Message-Id`, `Date`, `Subject`) and the
  payload string.
* The state file is modelled by its content: `Option String`, where `none`
  means the file does not exist (`FileNotFoundError` in the source).
* The generator `iterate_unread_messages` either raises `ValueError` (only
  possible after yielding nothing, since once `seen_last_message` is true it
  never raises) or yields a list of messages; it is modelled as
  `Except String (List Message)`.
* `telegram_send.send` is modelled by recording its argument (`SendCall`);
  file contents stay as the Lean `String` whose UTF-8 encoding the source
  would place in the `BytesIO` object.
* `main` is modelled by `mainRun`, a pure function from the mailbox, the
  state-file content and the two flags to the observable outcome: the raised
  error (if any), the state-file content at exit, the lines printed to
  stdout, and the successfully performed send calls.  Failure of the
  downstream send is modelled by a parameter `sendOk : SendCall → Bool`.
-/

namespace MboxToTelegram

/-- A message of the mbox file, restricted to the fields the program reads:
`email["Message-Id"]`, `email["Date"]`, `email["Subject"]`,
`email.get_payload()`. -/
structure Message where
  messageId : String
  date : String
  subject : String
  body : String
deriving Repr, DecidableEq

/-- Content of the state file; `none` models an absent file. -/
abbrev StateFile := Option String

/-- `get_last_processed_message`: read the state file, returning `None` when
the file does not exist (`FileNotFoundError`). -/
def get_last_processed_message (state_file : StateFile) : Option String :=
  state_file

/-- `update_last_processed_message`: overwrite the state file with the
message id. -/
def update_last_processed_message (_state_file : StateFile)
    (message_id : String) : StateFile :=
  some message_id

/-- The `ValueError` message raised when the cursor is not found; the source
interpolates `last_read_id` with `!r` (so a present id is surrounded by
quotes), here the id is inserted verbatim. -/
def cursorNotFoundError (last_read_id : Option String) : String :=
  "Message with id=" ++
    (match last_read_id with | none => "None" | some s => s) ++
    " not found in mbox."

/-- The loop of `iterate_unread_messages`: walk the mailbox carrying the
`seen_last_message` flag; yield every message once the flag is set, set the
flag on the first message whose `Message-Id` equals `last_read_id`, and raise
`ValueError` if the walk ends with the flag unset. -/
def iterateLoop (last_read_id : Option String) :
    List Message → Bool → Except String (List Message)
  | [], seen_last_message =>
      if seen_last_message then .ok []
      else .error (cursorNotFoundError last_read_id)
  | email :: rest, seen_last_message =>
      if seen_last_message then
        (iterateLoop last_read_id rest true).map (email :: ·)
      else if (some email.messageId : Option String) = last_read_id then
        iterateLoop last_read_id rest true
      else
        iterateLoop last_read_id rest false

/-- `iterate_unread_messages`: with no cursor everything is unread, otherwise
messages strictly after the first one matching the cursor are unread.  The
generator yields messages lazily; since it can only raise after yielding
nothing (once `seen_last_message` holds it never raises), `.error` faithfully
models the run in which zero messages were yielded before `ValueError`. -/
def iterate_unread_messages (mbox : List Message)
    (last_read_id : Option String) : Except String (List Message) :=
  iterateLoop last_read_id mbox last_read_id.isNone

/-- `MAX_MESSAGE_SIZE` from the source. -/
def MAX_MESSAGE_SIZE : Nat := 10000

/-- A file attachment passed to `telegram_send.send`: the `BytesIO` object
with a `name`; `content` is the string whose UTF-8 bytes fill the buffer. -/
structure TelegramFile where
  name : String
  content : String
deriving Repr, DecidableEq

/-- The argument record of one `telegram_send.send` call. -/
structure SendCall where
  messages : List String
  pre : Bool
  files : Option (List TelegramFile)
deriving Repr, DecidableEq

/-- The truncation marker appended to an oversized message text. -/
def truncationMarker : String := "\n...message too long..."

/-- The composed text of `send_message`: `"\n".join(msg_lines)`. -/
def composeText (date subject body : String) : String :=
  String.intercalate "\n" ["Local email message", date, subject, "", body]

/-- `send_message`: compose the text; when it is longer than
`MAX_MESSAGE_SIZE` characters attach the full text as `message.txt` and send
the first `MAX_MESSAGE_SIZE` characters followed by the truncation marker,
otherwise send the text as is. -/
def send_message (date subject body : String) : SendCall :=
  let msg_text := composeText date subject body
  if msg_text.length > MAX_MESSAGE_SIZE then
    { messages := [msg_text.take MAX_MESSAGE_SIZE ++ truncationMarker]
      pre := true
      files := some [{ name := "message.txt", content := msg_text }] }
  else
    { messages := [msg_text], pre := true, files := none }

/-- Observable outcome of one run of `main`: the result (`.error e` models an
uncaught exception), the state-file content at process exit, the lines
printed to stdout, and the send calls that completed successfully. -/
instance {α β : Type} [DecidableEq α] [DecidableEq β] : DecidableEq (Except α β) :=
  fun a b =>
    match a, b with
    | .ok x, .ok y =>
        if h : x = y then isTrue (by rw [h]) else isFalse (by simp [h])
    | .ok _, .error _ => isFalse (by simp)
    | .error _, .ok _ => isFalse (by simp)
    | .error e, .error e' =>
        if h : e = e' then isTrue (by rw [h]) else isFalse (by simp [h])

structure RunOutcome where
  result : Except String Unit
  stateAfter : StateFile
  output : List String
  sent : List SendCall
deriving Repr, DecidableEq

/-- The body of `main` after argument parsing: load the cursor (unless
skipping to the end), lazily iterate the unread messages, and act according
to the flags.  `sendOk` tells whether a given `telegram_send.send` call
succeeds; when it fails the exception propagates before the state file is
updated and before anything is printed. -/
def mainRun (sendOk : SendCall → Bool) (mbox : List Message)
    (state0 : StateFile) (dry_run skip_to_end : Bool) : RunOutcome :=
  let last_processed_message : Option String :=
    if skip_to_end then none else get_last_processed_message state0
  match iterate_unread_messages mbox last_processed_message with
  | .error e =>
      -- `ValueError` is raised before any message is yielded, hence before
      -- any send, state write or print.
      { result := .error e, stateAfter := state0, output := [], sent := [] }
  | .ok unread =>
      if dry_run || skip_to_end then
        -- the loop body only counts; after the loop `count = len(unread)`
        -- and `email` is the last element of `unread` (if any)
        if dry_run then
          { result := .ok ()
            stateAfter := state0
            output := ["Pending messages: " ++ toString unread.length]
            sent := [] }
        else
          match unread.getLast? with
          | none =>
              { result := .ok (), stateAfter := state0
                output := ["Skipped messages: 0"], sent := [] }
          | some email =>
              { result := .ok ()
                stateAfter := update_last_processed_message state0 email.messageId
                output := ["Skipped messages: " ++ toString unread.length]
                sent := [] }
      else
        match unread with
        | [] =>
            { result := .ok (), stateAfter := state0
              output := ["Messages processed: 0"], sent := [] }
        | email :: _ =>
            -- normal mode: send the first unread message, persist its id,
            -- break out of the loop
            let call := send_message email.date email.subject email.body
            if sendOk call then
              { result := .ok ()
                stateAfter := update_last_processed_message state0 email.messageId
                output := ["Messages processed: 1"]
                sent := [call] }
            else
              -- the send raised: no state update, no print
              { result := .error "SendError", stateAfter := state0
                output := [], sent := [] }

/-! ### Concrete fixtures

Mailbox `[A(id=1), B(id=2), C(id=3)]` from the spec's scenarios, a mailbox
with a duplicated `Message-Id`, and a large body for the splitting tests. -/

def msgA : Message := { messageId := "1", date := "dateA", subject := "subjA", body := "bodyA" }

def msgB : Message := { messageId := "2", date := "dateB", subject := "subjB", body := "bodyB" }

def msgC : Message := { messageId := "3", date := "dateC", subject := "subjC", body := "bodyC" }

def mboxABC : List Message := [msgA, msgB, msgC]

def msgDup1 : Message := { messageId := "1", date := "d1", subject := "s1", body := "b1" }

def msgDup2 : Message := { messageId := "1", date := "d2", subject := "s2", body := "b2" }

def bigBody : String := String.mk (List.replicate 10000 'a')

/-! ### Helper lemmas -/

/-- Once `seen_last_message` is true the loop yields the rest of the mailbox
and never raises. -/
theorem iterateLoop_seen (last_read_id : Option String) (msgs : List Message) :
    iterateLoop last_read_id msgs true = .ok msgs := by
  induction msgs with
  | nil => rfl
  | cons m rest ih => simp [iterateLoop, ih, Except.map]

/-- With an absent cursor the iterator yields the whole mailbox. -/
theorem iterate_none (mbox : List Message) :
    iterate_unread_messages mbox none = .ok mbox := by
  simp [iterate_unread_messages, Option.isNone, iterateLoop_seen]

/-- With a cursor matching the head of `m :: post` first, the iterator yields
`post`. -/
theorem iterate_found (pre post : List Message) (m : Message) (c : String)
    (hm : m.messageId = c) (hpre : ∀ x ∈ pre, x.messageId ≠ c) :
    iterate_unread_messages (pre ++ m :: post) (some c) = .ok post := by
  simp only [iterate_unread_messages, Option.isNone]
  induction pre with
  | nil =>
      simp [iterateLoop, hm, iterateLoop_seen]
  | cons x rest ih =>
      have hx2 : ((some x.messageId : Option String) = some c) = False := by
        simp [hpre x (by simp)]
      simp [List.cons_append, iterateLoop, hx2]
      exact ih fun y hy => hpre y (by simp [hy])

/-- With a cursor matching no message the iterator raises `ValueError`. -/
theorem iterate_not_found (mbox : List Message) (c : String)
    (h : ∀ x ∈ mbox, x.messageId ≠ c) :
    iterate_unread_messages mbox (some c) =
      .error (cursorNotFoundError (some c)) := by
  simp only [iterate_unread_messages, Option.isNone]
  induction mbox with
  | nil => rfl
  | cons x rest ih =>
      have hx2 : ((some x.messageId : Option String) = some c) = False := by
        simp [h x (by simp)]
      simp [iterateLoop, hx2]
      exact ih fun y hy => h y (by simp [hy])

/-- The composed text written out as appends (how `"\n".join` builds it). -/
theorem composeText_eq (d s b : String) :
    composeText d s b =
      "Local email message" ++ "\n" ++ d ++ "\n" ++ s ++ "\n" ++ "" ++ "\n" ++ b :=
  rfl

/-- Character count of the composed text: the header line has 19 characters
and the four joining newlines add 4 more. -/
theorem composeText_length (d s b : String) :
    (composeText d s b).length = d.length + s.length + b.length + 23 := by
  rw [composeText_eq]
  simp only [String.length_append]
  have h1 : "Local email message".length = 19 := rfl
  have h2 : "\n".length = 1 := rfl
  have h3 : "".length = 0 := rfl
  rw [h1, h2, h3]
  omega

/-- `String.take` keeps `min n s.length` characters. -/
theorem take_length (s : String) (n : Nat) :
    (s.take n).length = min n s.length := by
  rw [String.take_eq]
  show (s.data.take n).length = min n s.data.length
  rw [List.length_take]

/-- Computation of `mainRun` when the iterator raises (only possible when the
cursor is loaded, i.e. `skip_to_end` is off). -/
theorem mainRun_iterate_error (sendOk : SendCall → Bool) (mbox : List Message)
    (state0 : StateFile) (dry_run : Bool) (e : String)
    (h : iterate_unread_messages mbox (get_last_processed_message state0) = .error e) :
    mainRun sendOk mbox state0 dry_run false =
      { result := .error e, stateAfter := state0, output := [], sent := [] } := by
  simp [mainRun, h]

/-- Computation of `mainRun` in normal mode when there is no unread
message. -/
theorem mainRun_normal_nil (sendOk : SendCall → Bool) (mbox : List Message)
    (state0 : StateFile)
    (h : iterate_unread_messages mbox (get_last_processed_message state0) = .ok []) :
    mainRun sendOk mbox state0 false false =
      { result := .ok (), stateAfter := state0,
        output := ["Messages processed: 0"], sent := [] } := by
  simp [mainRun, h]

/-- Computation of `mainRun` in normal mode on the first unread message when
the send succeeds. -/
theorem mainRun_normal_cons_ok (sendOk : SendCall → Bool) (mbox : List Message)
    (state0 : StateFile) (m : Message) (rest : List Message)
    (h : iterate_unread_messages mbox (get_last_processed_message state0) = .ok (m :: rest))
    (hsend : sendOk (send_message m.date m.subject m.body) = true) :
    mainRun sendOk mbox state0 false false =
      { result := .ok ()
        stateAfter := update_last_processed_message state0 m.messageId
        output := ["Messages processed: 1"]
        sent := [send_message m.date m.subject m.body] } := by
  simp [mainRun, h, hsend]

/-- Computation of `mainRun` in normal mode on the first unread message when
the send fails. -/
theorem mainRun_normal_cons_fail (sendOk : SendCall → Bool) (mbox : List Message)
    (state0 : StateFile) (m : Message) (rest : List Message)
    (h : iterate_unread_messages mbox (get_last_processed_message state0) = .ok (m :: rest))
    (hsend : sendOk (send_message m.date m.subject m.body) = false) :
    mainRun sendOk mbox state0 false false =
      { result := .error "SendError", stateAfter := state0,
        output := [], sent := [] } := by
  simp [mainRun, h, hsend]

/-- Computation of `mainRun` in dry-run mode (skip-to-end off). -/
theorem mainRun_dry (sendOk : SendCall → Bool) (mbox : List Message)
    (state0 : StateFile) (l : List Message)
    (h : iterate_unread_messages mbox (get_last_processed_message state0) = .ok l) :
    mainRun sendOk mbox state0 true false =
      { result := .ok (), stateAfter := state0,
        output := ["Pending messages: " ++ toString l.length], sent := [] } := by
  simp [mainRun, h]

/-- Computation of `mainRun` in skip-to-end mode on the empty mailbox. -/
theorem mainRun_skip_nil (sendOk : SendCall → Bool) (state0 : StateFile) :
    mainRun sendOk [] state0 false true =
      { result := .ok (), stateAfter := state0,
        output := ["Skipped messages: 0"], sent := [] } := by
  simp [mainRun, iterate_none]

/-- Computation of `mainRun` in skip-to-end mode on a nonempty mailbox. -/
theorem mainRun_skip_getLast (sendOk : SendCall → Bool) (mbox : List Message)
    (state0 : StateFile) (m : Message) (h : mbox.getLast? = some m) :
    mainRun sendOk mbox state0 false true =
      { result := .ok (), stateAfter := some m.messageId,
        output := ["Skipped messages: " ++ toString mbox.length], sent := [] } := by
  simp [mainRun, iterate_none, h, update_last_processed_message]

/-- Computation of `mainRun` with both flags set: the cursor is ignored, the
whole mailbox is counted, the dry-run report wins and nothing is written. -/
theorem mainRun_both_flags (sendOk : SendCall → Bool) (mbox : List Message)
    (state0 : StateFile) :
    mainRun sendOk mbox state0 true true =
      { result := .ok (), stateAfter := state0,
        output := ["Pending messages: " ++ toString mbox.length], sent := [] } := by
  simp [mainRun, iterate_none]

/-- Character count of the big fixture body. -/
theorem bigBody_length : bigBody.length = 10000 := by
  show (List.replicate 10000 'a').length = 10000
  rw [List.length_replicate]

/-! ### Claims -/

/-- C1: with an absent last-seen identifier `iterate_unread_messages` yields
the entire mailbox in order; with a present identifier whose first match (in
mailbox order) is `m`, it yields exactly the messages strictly after `m`, in
original order, excluding `m` itself. -/
theorem C1_iterate_unread_messages (pre post : List Message) (m : Message)
    (c : String) (hm : m.messageId = c) (hpre : ∀ x ∈ pre, x.messageId ≠ c) :
    iterate_unread_messages (pre ++ m :: post) (some c) = .ok post ∧
    ∀ mbox : List Message, iterate_unread_messages mbox none = .ok mbox :=
  ⟨iterate_found pre post m c hm hpre, iterate_none⟩

/-- Witness for C1: the 3-message mailbox with cursor "2" yields `[msgC]`,
and with no cursor yields everything. -/
theorem C1_witness :
    (msgB.messageId = "2" ∧ ∀ x ∈ [msgA], x.messageId ≠ "2") ∧
    iterate_unread_messages (([msgA] : List Message) ++ msgB :: [msgC]) (some "2") =
      .ok [msgC] ∧
    iterate_unread_messages mboxABC none = .ok mboxABC := by
  refine ⟨⟨rfl, by decide⟩, ?_, ?_⟩
  · exact (C1_iterate_unread_messages [msgA] [msgC] msgB "2" rfl (by decide)).1
  · exact (C1_iterate_unread_messages [msgA] [msgC] msgB "2" rfl (by decide)).2 mboxABC

/-- C2: with a present cursor matching no message the iterator raises the
"cursor not found" `ValueError` having yielded nothing, and the run (with the
cursor loaded from the state file, i.e. skip-to-end off) aborts with the
state file unchanged and no output. -/
theorem C2_cursor_not_found (mbox : List Message) (c : String)
    (h : ∀ x ∈ mbox, x.messageId ≠ c) (sendOk : SendCall → Bool)
    (dry_run : Bool) :
    iterate_unread_messages mbox (some c) = .error (cursorNotFoundError (some c)) ∧
    mainRun sendOk mbox (some c) dry_run false =
      { result := .error (cursorNotFoundError (some c)), stateAfter := some c,
        output := [], sent := [] } := by
  have hi := iterate_not_found mbox c h
  exact ⟨hi, mainRun_iterate_error sendOk mbox (some c) dry_run _ hi⟩

/-- Witness for C2: the spec's scenario with stored cursor "99". -/
theorem C2_witness :
    (∀ x ∈ mboxABC, x.messageId ≠ "99") ∧
    iterate_unread_messages mboxABC (some "99") =
      .error (cursorNotFoundError (some "99")) ∧
    mainRun (fun _ => true) mboxABC (some "99") false false =
      { result := .error (cursorNotFoundError (some "99")), stateAfter := some "99",
        output := [], sent := [] } := by
  refine ⟨by decide, ?_, ?_⟩
  · exact (C2_cursor_not_found mboxABC "99" (by decide) (fun _ => true) false).1
  · exact (C2_cursor_not_found mboxABC "99" (by decide) (fun _ => true) false).2

/-- C3: in normal mode with a succeeding send, at most the first pending
message is forwarded, its identifier is persisted as the new cursor, and the
reported count is 0 without pending messages and 1 otherwise. -/
theorem C3_normal_mode (sendOk : SendCall → Bool)
    (hsend : ∀ call, sendOk call = true) (mbox : List Message)
    (state0 : StateFile) :
    (iterate_unread_messages mbox (get_last_processed_message state0) = .ok [] →
      mainRun sendOk mbox state0 false false =
        { result := .ok (), stateAfter := state0,
          output := ["Messages processed: 0"], sent := [] }) ∧
    (∀ m rest,
      iterate_unread_messages mbox (get_last_processed_message state0) =
        .ok (m :: rest) →
      mainRun sendOk mbox state0 false false =
        { result := .ok ()
          stateAfter := update_last_processed_message state0 m.messageId
          output := ["Messages processed: 1"]
          sent := [send_message m.date m.subject m.body] }) :=
  ⟨fun h => mainRun_normal_nil sendOk mbox state0 h,
   fun m rest h => mainRun_normal_cons_ok sendOk mbox state0 m rest h (hsend _)⟩

/-- Witness for C3: the spec's scenario — `[A(id=1), B(id=2), C(id=3)]` with
no prior state forwards A, writes "1" and prints "Messages processed: 1". -/
theorem C3_witness :
    (∀ call, (fun _ => true : SendCall → Bool) call = true) ∧
    iterate_unread_messages mboxABC (get_last_processed_message none) =
      .ok (msgA :: [msgB, msgC]) ∧
    mainRun (fun _ => true) mboxABC none false false =
      { result := .ok (), stateAfter := some "1",
        output := ["Messages processed: 1"],
        sent := [send_message "dateA" "subjA" "bodyA"] } := by
  refine ⟨fun _ => rfl, by decide, ?_⟩
  exact (C3_normal_mode (fun _ => true) (fun _ => rfl) mboxABC none).2
    msgA [msgB, msgC] (by decide)

/-- C4: the composed text is header, date, subject, blank line, body joined
by newlines; over 10000 characters the full text becomes the single
attachment "message.txt" and the text sent is the first 10000 characters
plus the truncation marker (so its length is 10000 plus the marker's
length); otherwise no attachment and the text is sent unmodified; exactly
one text payload is sent in every case. -/
theorem C4_send_message (d s b : String) :
    (send_message d s b).messages.length = 1 ∧
    ((composeText d s b).length > MAX_MESSAGE_SIZE →
      send_message d s b =
        { messages := [(composeText d s b).take MAX_MESSAGE_SIZE ++ truncationMarker]
          pre := true
          files := some [{ name := "message.txt", content := composeText d s b }] } ∧
      ((composeText d s b).take MAX_MESSAGE_SIZE ++ truncationMarker).length =
        MAX_MESSAGE_SIZE + truncationMarker.length) ∧
    ((composeText d s b).length ≤ MAX_MESSAGE_SIZE →
      send_message d s b =
        { messages := [composeText d s b], pre := true, files := none }) := by
  refine ⟨?_, fun h => ⟨?_, ?_⟩, fun h => ?_⟩
  · simp only [send_message]
    split <;> rfl
  · simp only [send_message]
    rw [if_pos h]
  · rw [String.length_append, take_length, Nat.min_eq_left (Nat.le_of_lt h)]
  · simp only [send_message]
    rw [if_neg (by omega)]

/-- Witness for C4: a 10023-character composed text is split (full text in
the attachment, truncated text of length 10000 plus the marker's), a
24-character one is sent as is without attachment. -/
theorem C4_witness :
    (composeText "" "" bigBody).length > MAX_MESSAGE_SIZE ∧
    (send_message "" "" bigBody).files =
      some [{ name := "message.txt", content := composeText "" "" bigBody }] ∧
    (send_message "" "" bigBody).messages =
      [(composeText "" "" bigBody).take MAX_MESSAGE_SIZE ++ truncationMarker] ∧
    ((composeText "" "" bigBody).take MAX_MESSAGE_SIZE ++ truncationMarker).length =
      MAX_MESSAGE_SIZE + truncationMarker.length ∧
    (composeText "" "" "x").length ≤ MAX_MESSAGE_SIZE ∧
    send_message "" "" "x" =
      { messages := [composeText "" "" "x"], pre := true, files := none } := by
  have h0 : ("" : String).length = 0 := rfl
  have h1 : ("x" : String).length = 1 := rfl
  have hbig : (composeText "" "" bigBody).length = 10023 := by
    rw [composeText_length, bigBody_length]
    simp only [h0]
  have hgt : (composeText "" "" bigBody).length > MAX_MESSAGE_SIZE := by
    rw [hbig]
    norm_num [MAX_MESSAGE_SIZE]
  have hsmall : (composeText "" "" "x").length ≤ MAX_MESSAGE_SIZE := by
    rw [composeText_length]
    simp only [h0, h1]
    norm_num [MAX_MESSAGE_SIZE]
  obtain ⟨heq, hlen⟩ := (C4_send_message "" "" bigBody).2.1 hgt
  refine ⟨hgt, ?_, ?_, hlen, hsmall, (C4_send_message "" "" "x").2.2 hsmall⟩
  · rw [heq]
  · rw [heq]

/-- C5: in normal mode, when the downstream send of the forwarded message
fails, the run aborts and the state-file content is unchanged. -/
theorem C5_send_failure (sendOk : SendCall → Bool) (mbox : List Message)
    (state0 : StateFile) (m : Message) (rest : List Message)
    (hit : iterate_unread_messages mbox (get_last_processed_message state0) =
      .ok (m :: rest))
    (hfail : sendOk (send_message m.date m.subject m.body) = false) :
    (mainRun sendOk mbox state0 false false).stateAfter = state0 ∧
    (mainRun sendOk mbox state0 false false).result = .error "SendError" := by
  rw [mainRun_normal_cons_fail sendOk mbox state0 m rest hit hfail]
  exact ⟨rfl, rfl⟩

/-- Witness for C5: a failing send on the 3-message mailbox leaves the
(absent) state file absent. -/
theorem C5_witness :
    iterate_unread_messages mboxABC (get_last_processed_message none) =
      .ok (msgA :: [msgB, msgC]) ∧
    (fun _ => false : SendCall → Bool)
      (send_message msgA.date msgA.subject msgA.body) = false ∧
    (mainRun (fun _ => false) mboxABC none false false).stateAfter = none ∧
    (mainRun (fun _ => false) mboxABC none false false).result =
      .error "SendError" := by
  have h := C5_send_failure (fun _ => false) mboxABC none msgA [msgB, msgC]
    (by decide) rfl
  exact ⟨by decide, rfl, h.1, h.2⟩

/-- C6: in skip-to-end mode (dry-run off) the stored cursor is ignored,
nothing is forwarded, "Skipped messages: n" is printed with n the mailbox
size, and the identifier of the last message (when one exists) is persisted
as the new cursor. -/
theorem C6_skip_to_end (sendOk : SendCall → Bool) (mbox : List Message)
    (state0 : StateFile) :
    (mainRun sendOk mbox state0 false true).result = .ok () ∧
    (mainRun sendOk mbox state0 false true).sent = [] ∧
    (mainRun sendOk mbox state0 false true).output =
      ["Skipped messages: " ++ toString mbox.length] ∧
    ∀ m, mbox.getLast? = some m →
      (mainRun sendOk mbox state0 false true).stateAfter = some m.messageId := by
  rcases h : mbox.getLast? with _ | m
  · have hnil : mbox = [] := List.getLast?_eq_none_iff.mp h
    subst hnil
    rw [mainRun_skip_nil sendOk state0]
    refine ⟨rfl, rfl, rfl, ?_⟩
    intro m hm
    simp at hm
  · rw [mainRun_skip_getLast sendOk mbox state0 m h]
    refine ⟨rfl, rfl, rfl, ?_⟩
    intro m' hm'
    obtain rfl : m = m' := Option.some.inj hm'
    rfl

/-- Witness for C6: skip-to-end on the 3-message mailbox with stored cursor
"1" prints "Skipped messages: 3" and persists "3". -/
theorem C6_witness :
    (mainRun (fun _ => true) mboxABC (some "1") false true).result = .ok () ∧
    (mainRun (fun _ => true) mboxABC (some "1") false true).sent = [] ∧
    (mainRun (fun _ => true) mboxABC (some "1") false true).output =
      ["Skipped messages: 3"] ∧
    mboxABC.getLast? = some msgC ∧
    (mainRun (fun _ => true) mboxABC (some "1") false true).stateAfter =
      some "3" := by
  have h := C6_skip_to_end (fun _ => true) mboxABC (some "1")
  refine ⟨h.1, h.2.1, ?_, by decide, ?_⟩
  · rw [h.2.2.1]
    decide
  · exact h.2.2.2 msgC (by decide)

/-- C7: in dry-run mode (skip-to-end off) all pending messages are counted,
nothing is forwarded, the state file is unchanged and the single output line
is "Pending messages: n". -/
theorem C7_dry_run (sendOk : SendCall → Bool) (mbox : List Message)
    (state0 : StateFile) (l : List Message)
    (h : iterate_unread_messages mbox (get_last_processed_message state0) = .ok l) :
    mainRun sendOk mbox state0 true false =
      { result := .ok (), stateAfter := state0,
        output := ["Pending messages: " ++ toString l.length], sent := [] } :=
  mainRun_dry sendOk mbox state0 l h

/-- Witness for C7: the spec's scenario — dry-run with state "1" on the
3-message mailbox prints "Pending messages: 2" and leaves the state file
unchanged. -/
theorem C7_witness :
    iterate_unread_messages mboxABC (get_last_processed_message (some "1")) =
      .ok [msgB, msgC] ∧
    mainRun (fun _ => true) mboxABC (some "1") true false =
      { result := .ok (), stateAfter := some "1",
        output := ["Pending messages: 2"], sent := [] } := by
  refine ⟨by decide, ?_⟩
  rw [C7_dry_run (fun _ => true) mboxABC (some "1") [msgB, msgC] (by decide)]
  decide

/-- C8 as stated is false: with mailbox `[id="1", id="1"]` the last message's
identifier "1" is the stored cursor, yet the normal run resumes after the
FIRST message with id "1" (the source's first-match rule), forwards the
second one and prints "Messages processed: 1", not "Messages processed: 0". -/
theorem C8_counterexample :
    [msgDup1, msgDup2].getLast? = some msgDup2 ∧
    msgDup2.messageId = "1" ∧
    (mainRun (fun _ => true) [msgDup1, msgDup2] (some "1") false false).output =
      ["Messages processed: 1"] ∧
    (mainRun (fun _ => true) [msgDup1, msgDup2] (some "1") false false).output ≠
      ["Messages processed: 0"] := by decide

/-- C8 (amended): for every mailbox whose last message is the FIRST message
carrying its identifier and whose identifier is the stored cursor, the
normal run prints "Messages processed: 0" and leaves the cursor unchanged,
and so does a second run started from the resulting state. -/
theorem C8_idempotence (sendOk : SendCall → Bool) (pre : List Message)
    (m : Message) (state0 : StateFile) (hstate : state0 = some m.messageId)
    (hpre : ∀ x ∈ pre, x.messageId ≠ m.messageId) :
    mainRun sendOk (pre ++ [m]) state0 false false =
      { result := .ok (), stateAfter := state0,
        output := ["Messages processed: 0"], sent := [] } ∧
    mainRun sendOk (pre ++ [m])
        (mainRun sendOk (pre ++ [m]) state0 false false).stateAfter false false =
      { result := .ok (), stateAfter := state0,
        output := ["Messages processed: 0"], sent := [] } := by
  have hit : iterate_unread_messages (pre ++ [m])
      (get_last_processed_message state0) = .ok [] := by
    subst hstate
    exact iterate_found pre [] m m.messageId rfl hpre
  have h1 := mainRun_normal_nil sendOk (pre ++ [m]) state0 hit
  refine ⟨h1, ?_⟩
  rw [h1]
  exact h1

/-- Witness for C8 (amended): two runs on `[A, B, C]` with stored cursor "3"
both print "Messages processed: 0" and keep the cursor. -/
theorem C8_witness :
    ((some "3" : StateFile) = some msgC.messageId ∧
      ∀ x ∈ [msgA, msgB], x.messageId ≠ msgC.messageId) ∧
    mainRun (fun _ => true) ([msgA, msgB] ++ [msgC]) (some "3") false false =
      { result := .ok (), stateAfter := some "3",
        output := ["Messages processed: 0"], sent := [] } ∧
    mainRun (fun _ => true) ([msgA, msgB] ++ [msgC])
        (mainRun (fun _ => true) ([msgA, msgB] ++ [msgC]) (some "3") false
          false).stateAfter false false =
      { result := .ok (), stateAfter := some "3",
        output := ["Messages processed: 0"], sent := [] } := by
  have h := C8_idempotence (fun _ => true) [msgA, msgB] msgC (some "3") rfl
    (by decide)
  exact ⟨⟨rfl, by decide⟩, h.1, h.2⟩

/-- C9: saving the cursor value X and loading it back returns exactly X (the
ASCII restriction of the claim is the file encoding; the store is content
preserving for every such string). -/
theorem C9_round_trip (state_file : StateFile) (x : String)
    (_hx : ∀ c ∈ x.data, c.toNat < 128) :
    get_last_processed_message (update_last_processed_message state_file x) =
      some x :=
  rfl

/-- Witness for C9 at the ASCII string "42". -/
theorem C9_witness :
    (∀ c ∈ ("42" : String).data, c.toNat < 128) ∧
    get_last_processed_message (update_last_processed_message none "42") =
      some "42" :=
  ⟨by decide, C9_round_trip none "42" (by decide)⟩

/-- C10: with both flags set the cursor is ignored (skip-to-end wins at
load), nothing is forwarded, the state file is never written (the `elif`
chain prints the dry-run line and skips the skip-to-end write), and the
single output line is "Pending messages: n" with n the mailbox size. -/
theorem C10_both_flags (sendOk : SendCall → Bool) (mbox : List Message)
    (state0 : StateFile) :
    mainRun sendOk mbox state0 true true =
      { result := .ok (), stateAfter := state0,
        output := ["Pending messages: " ++ toString mbox.length], sent := [] } :=
  mainRun_both_flags sendOk mbox state0

end MboxToTelegram
